import Mathlib

/-!
Verification of the QuantOptions pricing and backtesting engine
(src/frontend/src/App.js).

The backtest simulator works on exact JavaScript number arithmetic for the
inputs that arise here; it is embedded over `ℚ`.  JavaScript values that can
be `NaN` or `Infinity` (the ratio fields of the report, produced by `0/0`
and by `Math.min()` of an empty argument list) are embedded in the type
`JSVal`.  The Black-Scholes pricer is embedded over `ℝ`.
-/

/-- A JavaScript number that may be `NaN` or an infinity. -/
inductive JSVal where
  | num : ℚ → JSVal
  | nan : JSVal
  | posInf : JSVal
  | negInf : JSVal
deriving DecidableEq

/-- JavaScript division `a / b` on the values arising in the report
(finite over finite): `0 / 0 = NaN`, `x / 0 = ±Infinity` for `x ≠ 0`. -/
def jsDiv (a b : ℚ) : JSVal :=
  if b = 0 then
    if a = 0 then JSVal.nan else if 0 < a then JSVal.posInf else JSVal.negInf
  else JSVal.num (a / b)

/-- Multiplication of a JavaScript value by a positive finite constant
(used for the `* 100` scalings): `NaN * c = NaN`, `±Infinity * c = ±Infinity`. -/
def jsMulPos (v : JSVal) (c : ℚ) : JSVal :=
  match v with
  | JSVal.num q => JSVal.num (q * c)
  | JSVal.nan => JSVal.nan
  | JSVal.posInf => JSVal.posInf
  | JSVal.negInf => JSVal.negInf

/-- `Math.min(...l)`: `Infinity` when the argument list is empty, otherwise
the least element. -/
def mathMin (l : List ℚ) : JSVal :=
  match l with
  | [] => JSVal.posInf
  | x :: xs => JSVal.num (xs.foldl min x)

/-- One element of the `results` array pushed by `runCoveredCallBacktest`.
The JavaScript `date` string `new Date(2023, 0, i + 1)` is represented by
the day ordinal `i + 1` that determines it. -/
structure TradeRecord where
  date : ℕ
  stockPrice : ℚ
  pnl : ℚ
  cumulativePnL : ℚ
deriving DecidableEq

/-- Fallback trade record used with `List.getD`. -/
def dummyTrade : TradeRecord := ⟨0, 0, 0, 0⟩

/-- `prices[i + 29] || prices[prices.length - 1]` from the loop body of
`runCoveredCallBacktest`: an out-of-bounds access yields `undefined` and a
stored `0` is falsy, so both fall back to the last element; any other
stored rational is truthy and is kept.  `List.getD _ 0` returns `0` in
both falsy situations, so the fallback test is `= 0`. -/
def periodExit (prices : List ℚ) (i : ℕ) : ℚ :=
  let v := prices.getD (i + 29) 0
  if v = 0 then prices.getD (prices.length - 1) 0 else v

/-- The P&L of the period entered at index `i`: the body of the loop of
`runCoveredCallBacktest` (stock leg plus short-call leg). -/
def tradePnL (prices : List ℚ) (strike premium quantity : ℚ) (i : ℕ) : ℚ :=
  let entryPrice := prices.getD i 0
  let exitPrice := periodExit prices i
  let stockPnL := (exitPrice - entryPrice) * quantity * 100
  let optionPnL :=
    if strike < exitPrice then
      -(exitPrice - strike) * quantity * 100 + premium * quantity * 100
    else premium * quantity * 100
  stockPnL + optionPnL

/-- The loop `for (let i = 0; i < prices.length - 30; i += 30)` of
`runCoveredCallBacktest`.  Returns the pushed trade records together with
the final `totalPnL`, `winningTrades` and `totalTrades` accumulators.
The JavaScript guard `i < prices.length - 30` on numbers is `i + 30 <
prices.length` on naturals.  The structural `fuel` argument only drives the
recursion: the loop advances `i` by at least 1 each pass, so whenever
`prices.length ≤ i + fuel` the fuel never runs out (`coveredCallLoop_fuel`),
and `runCoveredCallBacktest` passes `fuel = prices.length`. -/
def coveredCallLoop (prices : List ℚ) (strike premium quantity : ℚ) :
    ℕ → ℕ → ℚ → ℕ → ℕ → List TradeRecord × ℚ × ℕ × ℕ
  | 0, _, totalPnL, winningTrades, totalTrades =>
      ([], totalPnL, winningTrades, totalTrades)
  | fuel + 1, i, totalPnL, winningTrades, totalTrades =>
    if i + 30 < prices.length then
      let totalTradePnL := tradePnL prices strike premium quantity i
      let newTotal := totalPnL + totalTradePnL
      let newWinning := if 0 < totalTradePnL then winningTrades + 1 else winningTrades
      let rest := coveredCallLoop prices strike premium quantity
        fuel (i + 30) newTotal newWinning (totalTrades + 1)
      (⟨i + 1, periodExit prices i, totalTradePnL, newTotal⟩ :: rest.1, rest.2)
    else ([], totalPnL, winningTrades, totalTrades)

/-- The report object returned by `runCoveredCallBacktest`. -/
structure BacktestReport where
  trades : List TradeRecord
  totalPnL : ℚ
  winningTrades : ℕ
  totalTrades : ℕ
  winRate : JSVal
  avgPnL : JSVal
  maxDrawdown : JSVal
  finalReturn : JSVal
deriving DecidableEq

/-- `runCoveredCallBacktest(prices, strike, premium, quantity)`.  The source
reads `strategyInputs.initialCapital` from the enclosing component state;
that closure value is passed here as the explicit argument
`initialCapital`. -/
def runCoveredCallBacktest (prices : List ℚ) (strike premium quantity : ℚ)
    (initialCapital : ℚ) : BacktestReport :=
  let r := coveredCallLoop prices strike premium quantity prices.length 0 0 0 0
  let results := r.1
  let totalPnL := r.2.1
  let winningTrades := r.2.2.1
  let totalTrades := r.2.2.2
  { trades := results
    totalPnL := totalPnL
    winningTrades := winningTrades
    totalTrades := totalTrades
    winRate := jsMulPos (jsDiv (winningTrades : ℚ) (totalTrades : ℚ)) 100
    avgPnL := jsDiv totalPnL (totalTrades : ℚ)
    maxDrawdown := mathMin (results.map TradeRecord.cumulativePnL)
    finalReturn := jsMulPos (jsDiv totalPnL initialCapital) 100 }

/-- `generateMockPriceData`'s loop from iteration `i` with current last
price `prev`.  `Math.random()` is modelled by the injected stream `rand`,
indexed by the loop counter; it returns the remaining prices and returns
lists. -/
def genAux (volatility : ℚ) (rand : ℕ → ℚ) (days i : ℕ) (prev : ℚ) :
    List ℚ × List ℚ :=
  if h : i < days then
    let randomReturn := (rand i - 1/2) * volatility * 2
    let newPrice := prev * (1 + randomReturn)
    let rest := genAux volatility rand days (i + 1) (max newPrice 1)
    (max newPrice 1 :: rest.1, randomReturn :: rest.2)
  else ([], [])
termination_by days - i
decreasing_by omega

/-- `generateMockPriceData(symbol, days, startPrice, volatility)`: the
unused `symbol` argument is omitted, and the inline `Math.random()` draws
are modelled by the injected stream `rand` (iteration `i` consumes
`rand i`).  Returns the `prices` and `returns` arrays. -/
def generateMockPriceData (days : ℕ) (startPrice volatility : ℚ)
    (rand : ℕ → ℚ) : List ℚ × List ℚ :=
  let rest := genAux volatility rand days 1 startPrice
  (startPrice :: rest.1, rest.2)

/-- The Abramowitz-Stegun approximation `normalCDF(x)` of the standard
normal cumulative distribution function, exactly as in the source.  The
JavaScript reassignment `x = Math.abs(x) / Math.sqrt(2.0)` is named `x1`. -/
noncomputable def normalCDF (x : ℝ) : ℝ :=
  let a1 : ℝ := 0.254829592
  let a2 : ℝ := -0.284496736
  let a3 : ℝ := 1.421413741
  let a4 : ℝ := -1.453152027
  let a5 : ℝ := 1.061405429
  let p : ℝ := 0.3275911
  let sign : ℝ := if x < 0 then -1 else 1
  let x1 := |x| / Real.sqrt 2
  let t := 1 / (1 + p * x1)
  let y :=
    1 - ((((a5 * t + a4) * t + a3) * t + a2) * t + a1) * t * Real.exp (-x1 * x1)
  0.5 * (1 + sign * y)

/-- The `greeks` object returned by `calculateBlackScholes`: the zero-expiry
branch returns the five keys `{delta, gamma, theta, vega, rho}`, the general
branch the eight keys split by option side. -/
inductive Greeks where
  | expiry (delta gamma theta vega rho : ℝ)
  | live (delta_call delta_put gamma theta_call theta_put vega rho_call rho_put : ℝ)

/-- The object returned by `calculateBlackScholes`. -/
structure BSResult where
  callPrice : ℝ
  putPrice : ℝ
  greeks : Greeks

/-- `calculateBlackScholes(S, K, T, r, sigma)`; `T` is in calendar days. -/
noncomputable def calculateBlackScholes (S K T r sigma : ℝ) : BSResult :=
  let timeToExpiry := T / 365
  if timeToExpiry ≤ 0 then
    { callPrice := max (S - K) 0
      putPrice := max (K - S) 0
      greeks := Greeks.expiry (if K < S then 1 else 0) 0 0 0 0 }
  else
    let d1 := (Real.log (S / K) + (r + 0.5 * sigma * sigma) * timeToExpiry) /
      (sigma * Real.sqrt timeToExpiry)
    let d2 := d1 - sigma * Real.sqrt timeToExpiry
    let Nd1 := normalCDF d1
    let Nd2 := normalCDF d2
    let nPrime_d1 := Real.exp (-0.5 * d1 * d1) / Real.sqrt (2 * Real.pi)
    let callPrice := S * Nd1 - K * Real.exp (-r * timeToExpiry) * Nd2
    let putPrice := K * Real.exp (-r * timeToExpiry) * (1 - Nd2) - S * (1 - Nd1)
    let delta_call := Nd1
    let delta_put := Nd1 - 1
    let gamma := nPrime_d1 / (S * sigma * Real.sqrt timeToExpiry)
    let theta_call :=
      ((-S * nPrime_d1 * sigma) / (2 * Real.sqrt timeToExpiry) -
        r * K * Real.exp (-r * timeToExpiry) * Nd2) / 365
    let theta_put :=
      ((-S * nPrime_d1 * sigma) / (2 * Real.sqrt timeToExpiry) +
        r * K * Real.exp (-r * timeToExpiry) * (1 - Nd2)) / 365
    let vega := S * nPrime_d1 * Real.sqrt timeToExpiry / 100
    let rho_call := K * timeToExpiry * Real.exp (-r * timeToExpiry) * Nd2 / 100
    let rho_put := -K * timeToExpiry * Real.exp (-r * timeToExpiry) * (1 - Nd2) / 100
    { callPrice := max callPrice 0
      putPrice := max putPrice 0
      greeks := Greeks.live delta_call delta_put gamma theta_call theta_put
        vega rho_call rho_put }

/-- The Abramowitz-Stegun quintic `((((a5·t + a4)·t + a3)·t + a2)·t + a1)·t`
appearing in `normalCDF`, as a function of `t`. -/
noncomputable def polyA (t : ℝ) : ℝ :=
  ((((1.061405429 * t + -1.453152027) * t + 1.421413741) * t +
    -0.284496736) * t + 0.254829592) * t

/-- The rational substitution `t = 1 / (1 + p·|x|/√2)` of `normalCDF`. -/
noncomputable def tO (x : ℝ) : ℝ :=
  1 / (1 + 0.3275911 * (|x| / Real.sqrt 2))

lemma coveredCallLoop_length (prices : List ℚ) (s p q : ℚ) :
    ∀ fuel i t w c, prices.length ≤ i + fuel →
      ((coveredCallLoop prices s p q fuel i t w c).1).length =
        (prices.length - i - 1) / 30 := by
  intro fuel
  induction fuel with
  | zero =>
    intro i t w c h
    simp only [coveredCallLoop, List.length_nil]
    omega
  | succ fuel ih =>
    intro i t w c h
    by_cases hg : i + 30 < prices.length
    · simp only [coveredCallLoop, if_pos hg, List.length_cons]
      rw [ih (i + 30) _ _ _ (by omega)]
      omega
    · simp only [coveredCallLoop, if_neg hg, List.length_nil]
      omega

lemma coveredCallLoop_total (prices : List ℚ) (s p q : ℚ) :
    ∀ fuel i t w c,
      (coveredCallLoop prices s p q fuel i t w c).2.1 =
        t + (((coveredCallLoop prices s p q fuel i t w c).1).map TradeRecord.pnl).sum := by
  intro fuel
  induction fuel with
  | zero => intro i t w c; simp [coveredCallLoop]
  | succ fuel ih =>
    intro i t w c
    by_cases hg : i + 30 < prices.length
    · simp only [coveredCallLoop, if_pos hg, List.map_cons, List.sum_cons]
      rw [ih]
      ring
    · simp [coveredCallLoop, if_neg hg]

lemma coveredCallLoop_count (prices : List ℚ) (s p q : ℚ) :
    ∀ fuel i t w c,
      (coveredCallLoop prices s p q fuel i t w c).2.2.2 =
        c + ((coveredCallLoop prices s p q fuel i t w c).1).length := by
  intro fuel
  induction fuel with
  | zero => intro i t w c; simp [coveredCallLoop]
  | succ fuel ih =>
    intro i t w c
    by_cases hg : i + 30 < prices.length
    · simp only [coveredCallLoop, if_pos hg, List.length_cons]
      rw [ih]
      omega
    · simp [coveredCallLoop, if_neg hg]

lemma coveredCallLoop_getD (prices : List ℚ) (s p q : ℚ) :
    ∀ fuel i t w c k, k < ((coveredCallLoop prices s p q fuel i t w c).1).length →
      ((coveredCallLoop prices s p q fuel i t w c).1).getD k dummyTrade =
        ⟨i + 30 * k + 1, periodExit prices (i + 30 * k),
          tradePnL prices s p q (i + 30 * k),
          t + ((List.range (k + 1)).map
            (fun j => tradePnL prices s p q (i + 30 * j))).sum⟩ := by
  intro fuel
  induction fuel with
  | zero => intro i t w c k hk; simp [coveredCallLoop] at hk
  | succ fuel ih =>
    intro i t w c k hk
    by_cases hg : i + 30 < prices.length
    · simp only [coveredCallLoop, if_pos hg] at hk ⊢
      cases k with
      | zero =>
        simp [List.range_succ]
      | succ k =>
        simp only [List.getD_cons_succ]
        rw [ih _ _ _ _ k (by simpa using hk)]
        have hidx : i + 30 + 30 * k = i + 30 * (k + 1) := by ring
        have hfun : (fun j => tradePnL prices s p q (i + 30 + 30 * j)) =
            fun j => tradePnL prices s p q (i + 30 * (j + 1)) := by
          funext j
          congr 1
          ring
        have hrange : ((List.range (k + 1 + 1)).map
            (fun j => tradePnL prices s p q (i + 30 * j))).sum =
            tradePnL prices s p q i + ((List.range (k + 1)).map
              (fun j => tradePnL prices s p q (i + 30 * (j + 1)))).sum := by
          rw [List.range_succ_eq_map]
          simp only [List.map_cons, List.sum_cons, List.map_map, Nat.mul_zero,
            Nat.add_zero]
          rfl
        simp only [TradeRecord.mk.injEq, hidx, hfun, hrange, true_and, and_true]
        ring
    · simp [coveredCallLoop, if_neg hg] at hk

lemma coveredCallLoop_cumul (prices : List ℚ) (s p q : ℚ) :
    ∀ fuel i t w c k, k < ((coveredCallLoop prices s p q fuel i t w c).1).length →
      (((coveredCallLoop prices s p q fuel i t w c).1).getD k dummyTrade).cumulativePnL =
        t + ((((coveredCallLoop prices s p q fuel i t w c).1).take (k + 1)).map
          TradeRecord.pnl).sum := by
  intro fuel
  induction fuel with
  | zero => intro i t w c k hk; simp [coveredCallLoop] at hk
  | succ fuel ih =>
    intro i t w c k hk
    by_cases hg : i + 30 < prices.length
    · simp only [coveredCallLoop, if_pos hg] at hk ⊢
      cases k with
      | zero => simp
      | succ k =>
        simp only [List.getD_cons_succ, List.take_succ_cons, List.map_cons,
          List.sum_cons]
        rw [ih _ _ _ _ k (by simpa using hk)]
        ring
    · simp [coveredCallLoop, if_neg hg] at hk

lemma genAux_length (v : ℚ) (rand : ℕ → ℚ) (days : ℕ) :
    ∀ i prev, ((genAux v rand days i prev).1).length = days - i := by
  suffices h : ∀ n i prev, days - i ≤ n →
      ((genAux v rand days i prev).1).length = days - i by
    intro i prev
    exact h (days - i) i prev le_rfl
  intro n
  induction n with
  | zero =>
    intro i prev h0
    rw [genAux]
    have hi : ¬ i < days := by omega
    simp only [dif_neg hi, List.length_nil]
    omega
  | succ n ih =>
    intro i prev hn
    by_cases hi : i < days
    · rw [genAux]
      simp only [dif_pos hi, List.length_cons]
      rw [ih (i + 1) _ (by omega)]
      omega
    · rw [genAux]
      simp only [dif_neg hi, List.length_nil]
      omega

lemma genAux_one_le (v : ℚ) (rand : ℕ → ℚ) (days : ℕ) :
    ∀ i prev x, x ∈ (genAux v rand days i prev).1 → 1 ≤ x := by
  suffices h : ∀ n i prev x, days - i ≤ n →
      x ∈ (genAux v rand days i prev).1 → 1 ≤ x by
    intro i prev x
    exact h (days - i) i prev x le_rfl
  intro n
  induction n with
  | zero =>
    intro i prev x h0 hx
    rw [genAux] at hx
    have hi : ¬ i < days := by omega
    simp [dif_neg hi] at hx
  | succ n ih =>
    intro i prev x hn hx
    by_cases hi : i < days
    · rw [genAux] at hx
      simp only [dif_pos hi, List.mem_cons] at hx
      rcases hx with hx | hx
      · rw [hx]
        exact le_max_right _ _
      · exact ih (i + 1) _ x (by omega) hx
    · rw [genAux] at hx
      simp [dif_neg hi] at hx

lemma genAux_getD (v : ℚ) (rand : ℕ → ℚ) (days : ℕ) :
    ∀ i prev k, i + k < days →
      ((genAux v rand days i prev).1).getD k 0 =
        max ((if k = 0 then prev else ((genAux v rand days i prev).1).getD (k - 1) 0) *
          (1 + (rand (i + k) - 1/2) * v * 2)) 1 := by
  suffices h : ∀ n i prev k, days - i ≤ n → i + k < days →
      ((genAux v rand days i prev).1).getD k 0 =
        max ((if k = 0 then prev else ((genAux v rand days i prev).1).getD (k - 1) 0) *
          (1 + (rand (i + k) - 1/2) * v * 2)) 1 by
    intro i prev k
    exact h (days - i) i prev k le_rfl
  intro n
  induction n with
  | zero =>
    intro i prev k h0 hk
    omega
  | succ n ih =>
    intro i prev k hn hk
    have hi : i < days := by omega
    rw [genAux]
    simp only [dif_pos hi]
    cases k with
    | zero =>
      simp
    | succ k =>
      simp only [List.getD_cons_succ, Nat.succ_ne_zero, if_neg, Nat.add_sub_cancel]
      rw [ih (i + 1) _ k (by omega) (by omega)]
      have hidx : i + 1 + k = i + (k + 1) := by omega
      rw [hidx]
      cases k with
      | zero => simp
      | succ k => simp

lemma genAux_congr (v : ℚ) (days : ℕ) (r1 r2 : ℕ → ℚ) :
    ∀ i prev, (∀ m, i ≤ m → m < days → r1 m = r2 m) →
      genAux v r1 days i prev = genAux v r2 days i prev := by
  suffices h : ∀ n i prev, days - i ≤ n → (∀ m, i ≤ m → m < days → r1 m = r2 m) →
      genAux v r1 days i prev = genAux v r2 days i prev by
    intro i prev hr
    exact h (days - i) i prev le_rfl hr
  intro n
  induction n with
  | zero =>
    intro i prev h0 hr
    rw [genAux, genAux]
    have hi : ¬ i < days := by omega
    simp [dif_neg hi]
  | succ n ih =>
    intro i prev hn hr
    by_cases hi : i < days
    · rw [genAux, genAux]
      simp only [dif_pos hi]
      rw [hr i le_rfl hi, ih (i + 1) _ (by omega) (fun m h1 h2 => hr m (by omega) h2)]
    · rw [genAux, genAux]
      have hi2 : ¬ i < days := hi
      simp [dif_neg hi2]

set_option maxRecDepth 4000

lemma foldl_min_mem (x : ℚ) (xs : List ℚ) : xs.foldl min x ∈ x :: xs := by
  induction xs generalizing x with
  | nil => simp
  | cons y ys ih =>
    simp only [List.foldl_cons]
    have h := ih (min x y)
    rw [List.mem_cons] at h
    rcases h with h | h
    · rw [h]
      rcases min_choice x y with hm | hm <;> rw [hm] <;> simp
    · exact List.mem_cons_of_mem _ (List.mem_cons_of_mem _ h)

lemma foldl_min_le (x : ℚ) (xs : List ℚ) : ∀ y ∈ x :: xs, xs.foldl min x ≤ y := by
  induction xs generalizing x with
  | nil => intro y hy; simp at hy; simp [hy]
  | cons z zs ih =>
    intro y hy
    simp only [List.foldl_cons]
    simp only [List.mem_cons] at hy
    rcases hy with h | h | h
    · exact le_trans (by
        have := ih (min x z) (min x z) (by simp)
        exact this) (by rw [h]; exact min_le_left _ _)
    · exact le_trans (ih (min x z) (min x z) (by simp)) (by rw [h]; exact min_le_right _ _)
    · exact ih (min x z) y (by simp [h])

lemma exp_arg_eq (x : ℝ) :
    -(|x| / Real.sqrt 2) * (|x| / Real.sqrt 2) = -(x * x) / 2 := by
  have h2 : Real.sqrt 2 * Real.sqrt 2 = 2 := Real.mul_self_sqrt (by norm_num)
  have habs : |x| * |x| = x * x := abs_mul_abs_self x
  field_simp


lemma normalCDF_eq_neg (x : ℝ) (hx : x < 0) :
    normalCDF x = 0.5 * (polyA (tO x) * Real.exp (-(x * x) / 2)) := by
  simp only [normalCDF, polyA, tO, if_pos hx]
  rw [exp_arg_eq]
  ring

lemma normalCDF_eq_nonneg (x : ℝ) (hx : ¬ x < 0) :
    normalCDF x = 1 - 0.5 * (polyA (tO x) * Real.exp (-(x * x) / 2)) := by
  simp only [normalCDF, polyA, tO, if_neg hx]
  rw [exp_arg_eq]
  ring

lemma tO_pos (x : ℝ) : 0 < tO x := by
  simp only [tO]
  have h1 : 0 ≤ |x| / Real.sqrt 2 := by positivity
  positivity

lemma tO_le_one (x : ℝ) : tO x ≤ 1 := by
  simp only [tO]
  rw [div_le_one (by positivity)]
  nlinarith [abs_nonneg x, Real.sqrt_pos.mpr (show (0:ℝ) < 2 by norm_num),
    div_nonneg (abs_nonneg x) (Real.sqrt_nonneg 2)]

lemma tO_anti (x y : ℝ) (h : |x| ≤ |y|) : tO y ≤ tO x := by
  simp only [tO]
  have hs : 0 < Real.sqrt 2 := Real.sqrt_pos.mpr (by norm_num)
  have hd : |x| / Real.sqrt 2 ≤ |y| / Real.sqrt 2 := by
    gcongr
  have hx0 : (0:ℝ) < 1 + 0.3275911 * (|x| / Real.sqrt 2) := by
    have : 0 ≤ |x| / Real.sqrt 2 := by positivity
    nlinarith
  apply one_div_le_one_div_of_le hx0
  nlinarith

set_option maxHeartbeats 2000000 in
lemma polyA_mono (a b : ℝ) (ha0 : 0 ≤ a) (hab : a ≤ b) (hb1 : b ≤ 1) :
    polyA a ≤ polyA b := by
  have hb0 : 0 ≤ b := le_trans ha0 hab
  have ha1 : a ≤ 1 := le_trans hab hb1
  have h1a : (0:ℝ) ≤ 1 - a := by linarith
  have h1b : (0:ℝ) ≤ 1 - b := by linarith
  have he : (0:ℝ) ≤ b - a := by linarith
  have key : polyA b - polyA a = (b - a) *
      (((31853699 : ℝ) / 125000000) * (a ^ 0 * (1 - a) ^ 4 * (b ^ 0 * (1 - b) ^ 4)) +
      ((2870397 : ℝ) / 3906250) * (a ^ 0 * (1 - a) ^ 4 * (b ^ 1 * (1 - b) ^ 3)) +
      ((419380217 : ℝ) / 200000000) * (a ^ 0 * (1 - a) ^ 4 * (b ^ 2 * (1 - b) ^ 2)) +
      ((311100723 : ℝ) / 200000000) * (a ^ 0 * (1 - a) ^ 4 * (b ^ 3 * (1 - b) ^ 1)) +
      ((999999999 : ℝ) / 1000000000) * (a ^ 0 * (1 - a) ^ 4 * (b ^ 4 * (1 - b) ^ 0)) +
      ((2870397 : ℝ) / 3906250) * (a ^ 1 * (1 - a) ^ 3 * (b ^ 0 * (1 - b) ^ 4)) +
      ((128908533 : ℝ) / 40000000) * (a ^ 1 * (1 - a) ^ 3 * (b ^ 1 * (1 - b) ^ 3)) +
      ((59323207 : ℝ) / 6250000) * (a ^ 1 * (1 - a) ^ 3 * (b ^ 2 * (1 - b) ^ 2)) +
      ((3751685057 : ℝ) / 500000000) * (a ^ 1 * (1 - a) ^ 3 * (b ^ 3 * (1 - b) ^ 1)) +
      ((4745170403 : ℝ) / 1000000000) * (a ^ 1 * (1 - a) ^ 3 * (b ^ 4 * (1 - b) ^ 0)) +
      ((419380217 : ℝ) / 200000000) * (a ^ 2 * (1 - a) ^ 2 * (b ^ 0 * (1 - b) ^ 4)) +
      ((59323207 : ℝ) / 6250000) * (a ^ 2 * (1 - a) ^ 2 * (b ^ 1 * (1 - b) ^ 3)) +
      ((5281041161 : ℝ) / 250000000) * (a ^ 2 * (1 - a) ^ 2 * (b ^ 2 * (1 - b) ^ 2)) +
      ((16626098393 : ℝ) / 1000000000) * (a ^ 2 * (1 - a) ^ 2 * (b ^ 3 * (1 - b) ^ 1)) +
      ((4632589179 : ℝ) / 500000000) * (a ^ 2 * (1 - a) ^ 2 * (b ^ 4 * (1 - b) ^ 0)) +
      ((311100723 : ℝ) / 200000000) * (a ^ 3 * (1 - a) ^ 1 * (b ^ 0 * (1 - b) ^ 4)) +
      ((3751685057 : ℝ) / 500000000) * (a ^ 3 * (1 - a) ^ 1 * (b ^ 1 * (1 - b) ^ 3)) +
      ((16626098393 : ℝ) / 1000000000) * (a ^ 3 * (1 - a) ^ 1 * (b ^ 2 * (1 - b) ^ 2)) +
      ((14335709083 : ℝ) / 1000000000) * (a ^ 3 * (1 - a) ^ 1 * (b ^ 3 * (1 - b) ^ 1)) +
      ((1580619781 : ℝ) / 200000000) * (a ^ 3 * (1 - a) ^ 1 * (b ^ 4 * (1 - b) ^ 0)) +
      ((999999999 : ℝ) / 1000000000) * (a ^ 4 * (1 - a) ^ 0 * (b ^ 0 * (1 - b) ^ 4)) +
      ((4745170403 : ℝ) / 1000000000) * (a ^ 4 * (1 - a) ^ 0 * (b ^ 1 * (1 - b) ^ 3)) +
      ((4632589179 : ℝ) / 500000000) * (a ^ 4 * (1 - a) ^ 0 * (b ^ 2 * (1 - b) ^ 2)) +
      ((1580619781 : ℝ) / 200000000) * (a ^ 4 * (1 - a) ^ 0 * (b ^ 3 * (1 - b) ^ 1)) +
      ((172224819 : ℝ) / 50000000) * (a ^ 4 * (1 - a) ^ 0 * (b ^ 4 * (1 - b) ^ 0))) := by
    simp only [polyA]
    ring
  have h00 : (0:ℝ) ≤ ((31853699 : ℝ) / 125000000) * (a ^ 0 * (1 - a) ^ 4 * (b ^ 0 * (1 - b) ^ 4)) :=
    mul_nonneg (by norm_num) (mul_nonneg (mul_nonneg (pow_nonneg ha0 0) (pow_nonneg h1a 4)) (mul_nonneg (pow_nonneg hb0 0) (pow_nonneg h1b 4)))
  have h01 : (0:ℝ) ≤ ((2870397 : ℝ) / 3906250) * (a ^ 0 * (1 - a) ^ 4 * (b ^ 1 * (1 - b) ^ 3)) :=
    mul_nonneg (by norm_num) (mul_nonneg (mul_nonneg (pow_nonneg ha0 0) (pow_nonneg h1a 4)) (mul_nonneg (pow_nonneg hb0 1) (pow_nonneg h1b 3)))
  have h02 : (0:ℝ) ≤ ((419380217 : ℝ) / 200000000) * (a ^ 0 * (1 - a) ^ 4 * (b ^ 2 * (1 - b) ^ 2)) :=
    mul_nonneg (by norm_num) (mul_nonneg (mul_nonneg (pow_nonneg ha0 0) (pow_nonneg h1a 4)) (mul_nonneg (pow_nonneg hb0 2) (pow_nonneg h1b 2)))
  have h03 : (0:ℝ) ≤ ((311100723 : ℝ) / 200000000) * (a ^ 0 * (1 - a) ^ 4 * (b ^ 3 * (1 - b) ^ 1)) :=
    mul_nonneg (by norm_num) (mul_nonneg (mul_nonneg (pow_nonneg ha0 0) (pow_nonneg h1a 4)) (mul_nonneg (pow_nonneg hb0 3) (pow_nonneg h1b 1)))
  have h04 : (0:ℝ) ≤ ((999999999 : ℝ) / 1000000000) * (a ^ 0 * (1 - a) ^ 4 * (b ^ 4 * (1 - b) ^ 0)) :=
    mul_nonneg (by norm_num) (mul_nonneg (mul_nonneg (pow_nonneg ha0 0) (pow_nonneg h1a 4)) (mul_nonneg (pow_nonneg hb0 4) (pow_nonneg h1b 0)))
  have h10 : (0:ℝ) ≤ ((2870397 : ℝ) / 3906250) * (a ^ 1 * (1 - a) ^ 3 * (b ^ 0 * (1 - b) ^ 4)) :=
    mul_nonneg (by norm_num) (mul_nonneg (mul_nonneg (pow_nonneg ha0 1) (pow_nonneg h1a 3)) (mul_nonneg (pow_nonneg hb0 0) (pow_nonneg h1b 4)))
  have h11 : (0:ℝ) ≤ ((128908533 : ℝ) / 40000000) * (a ^ 1 * (1 - a) ^ 3 * (b ^ 1 * (1 - b) ^ 3)) :=
    mul_nonneg (by norm_num) (mul_nonneg (mul_nonneg (pow_nonneg ha0 1) (pow_nonneg h1a 3)) (mul_nonneg (pow_nonneg hb0 1) (pow_nonneg h1b 3)))
  have h12 : (0:ℝ) ≤ ((59323207 : ℝ) / 6250000) * (a ^ 1 * (1 - a) ^ 3 * (b ^ 2 * (1 - b) ^ 2)) :=
    mul_nonneg (by norm_num) (mul_nonneg (mul_nonneg (pow_nonneg ha0 1) (pow_nonneg h1a 3)) (mul_nonneg (pow_nonneg hb0 2) (pow_nonneg h1b 2)))
  have h13 : (0:ℝ) ≤ ((3751685057 : ℝ) / 500000000) * (a ^ 1 * (1 - a) ^ 3 * (b ^ 3 * (1 - b) ^ 1)) :=
    mul_nonneg (by norm_num) (mul_nonneg (mul_nonneg (pow_nonneg ha0 1) (pow_nonneg h1a 3)) (mul_nonneg (pow_nonneg hb0 3) (pow_nonneg h1b 1)))
  have h14 : (0:ℝ) ≤ ((4745170403 : ℝ) / 1000000000) * (a ^ 1 * (1 - a) ^ 3 * (b ^ 4 * (1 - b) ^ 0)) :=
    mul_nonneg (by norm_num) (mul_nonneg (mul_nonneg (pow_nonneg ha0 1) (pow_nonneg h1a 3)) (mul_nonneg (pow_nonneg hb0 4) (pow_nonneg h1b 0)))
  have h20 : (0:ℝ) ≤ ((419380217 : ℝ) / 200000000) * (a ^ 2 * (1 - a) ^ 2 * (b ^ 0 * (1 - b) ^ 4)) :=
    mul_nonneg (by norm_num) (mul_nonneg (mul_nonneg (pow_nonneg ha0 2) (pow_nonneg h1a 2)) (mul_nonneg (pow_nonneg hb0 0) (pow_nonneg h1b 4)))
  have h21 : (0:ℝ) ≤ ((59323207 : ℝ) / 6250000) * (a ^ 2 * (1 - a) ^ 2 * (b ^ 1 * (1 - b) ^ 3)) :=
    mul_nonneg (by norm_num) (mul_nonneg (mul_nonneg (pow_nonneg ha0 2) (pow_nonneg h1a 2)) (mul_nonneg (pow_nonneg hb0 1) (pow_nonneg h1b 3)))
  have h22 : (0:ℝ) ≤ ((5281041161 : ℝ) / 250000000) * (a ^ 2 * (1 - a) ^ 2 * (b ^ 2 * (1 - b) ^ 2)) :=
    mul_nonneg (by norm_num) (mul_nonneg (mul_nonneg (pow_nonneg ha0 2) (pow_nonneg h1a 2)) (mul_nonneg (pow_nonneg hb0 2) (pow_nonneg h1b 2)))
  have h23 : (0:ℝ) ≤ ((16626098393 : ℝ) / 1000000000) * (a ^ 2 * (1 - a) ^ 2 * (b ^ 3 * (1 - b) ^ 1)) :=
    mul_nonneg (by norm_num) (mul_nonneg (mul_nonneg (pow_nonneg ha0 2) (pow_nonneg h1a 2)) (mul_nonneg (pow_nonneg hb0 3) (pow_nonneg h1b 1)))
  have h24 : (0:ℝ) ≤ ((4632589179 : ℝ) / 500000000) * (a ^ 2 * (1 - a) ^ 2 * (b ^ 4 * (1 - b) ^ 0)) :=
    mul_nonneg (by norm_num) (mul_nonneg (mul_nonneg (pow_nonneg ha0 2) (pow_nonneg h1a 2)) (mul_nonneg (pow_nonneg hb0 4) (pow_nonneg h1b 0)))
  have h30 : (0:ℝ) ≤ ((311100723 : ℝ) / 200000000) * (a ^ 3 * (1 - a) ^ 1 * (b ^ 0 * (1 - b) ^ 4)) :=
    mul_nonneg (by norm_num) (mul_nonneg (mul_nonneg (pow_nonneg ha0 3) (pow_nonneg h1a 1)) (mul_nonneg (pow_nonneg hb0 0) (pow_nonneg h1b 4)))
  have h31 : (0:ℝ) ≤ ((3751685057 : ℝ) / 500000000) * (a ^ 3 * (1 - a) ^ 1 * (b ^ 1 * (1 - b) ^ 3)) :=
    mul_nonneg (by norm_num) (mul_nonneg (mul_nonneg (pow_nonneg ha0 3) (pow_nonneg h1a 1)) (mul_nonneg (pow_nonneg hb0 1) (pow_nonneg h1b 3)))
  have h32 : (0:ℝ) ≤ ((16626098393 : ℝ) / 1000000000) * (a ^ 3 * (1 - a) ^ 1 * (b ^ 2 * (1 - b) ^ 2)) :=
    mul_nonneg (by norm_num) (mul_nonneg (mul_nonneg (pow_nonneg ha0 3) (pow_nonneg h1a 1)) (mul_nonneg (pow_nonneg hb0 2) (pow_nonneg h1b 2)))
  have h33 : (0:ℝ) ≤ ((14335709083 : ℝ) / 1000000000) * (a ^ 3 * (1 - a) ^ 1 * (b ^ 3 * (1 - b) ^ 1)) :=
    mul_nonneg (by norm_num) (mul_nonneg (mul_nonneg (pow_nonneg ha0 3) (pow_nonneg h1a 1)) (mul_nonneg (pow_nonneg hb0 3) (pow_nonneg h1b 1)))
  have h34 : (0:ℝ) ≤ ((1580619781 : ℝ) / 200000000) * (a ^ 3 * (1 - a) ^ 1 * (b ^ 4 * (1 - b) ^ 0)) :=
    mul_nonneg (by norm_num) (mul_nonneg (mul_nonneg (pow_nonneg ha0 3) (pow_nonneg h1a 1)) (mul_nonneg (pow_nonneg hb0 4) (pow_nonneg h1b 0)))
  have h40 : (0:ℝ) ≤ ((999999999 : ℝ) / 1000000000) * (a ^ 4 * (1 - a) ^ 0 * (b ^ 0 * (1 - b) ^ 4)) :=
    mul_nonneg (by norm_num) (mul_nonneg (mul_nonneg (pow_nonneg ha0 4) (pow_nonneg h1a 0)) (mul_nonneg (pow_nonneg hb0 0) (pow_nonneg h1b 4)))
  have h41 : (0:ℝ) ≤ ((4745170403 : ℝ) / 1000000000) * (a ^ 4 * (1 - a) ^ 0 * (b ^ 1 * (1 - b) ^ 3)) :=
    mul_nonneg (by norm_num) (mul_nonneg (mul_nonneg (pow_nonneg ha0 4) (pow_nonneg h1a 0)) (mul_nonneg (pow_nonneg hb0 1) (pow_nonneg h1b 3)))
  have h42 : (0:ℝ) ≤ ((4632589179 : ℝ) / 500000000) * (a ^ 4 * (1 - a) ^ 0 * (b ^ 2 * (1 - b) ^ 2)) :=
    mul_nonneg (by norm_num) (mul_nonneg (mul_nonneg (pow_nonneg ha0 4) (pow_nonneg h1a 0)) (mul_nonneg (pow_nonneg hb0 2) (pow_nonneg h1b 2)))
  have h43 : (0:ℝ) ≤ ((1580619781 : ℝ) / 200000000) * (a ^ 4 * (1 - a) ^ 0 * (b ^ 3 * (1 - b) ^ 1)) :=
    mul_nonneg (by norm_num) (mul_nonneg (mul_nonneg (pow_nonneg ha0 4) (pow_nonneg h1a 0)) (mul_nonneg (pow_nonneg hb0 3) (pow_nonneg h1b 1)))
  have h44 : (0:ℝ) ≤ ((172224819 : ℝ) / 50000000) * (a ^ 4 * (1 - a) ^ 0 * (b ^ 4 * (1 - b) ^ 0)) :=
    mul_nonneg (by norm_num) (mul_nonneg (mul_nonneg (pow_nonneg ha0 4) (pow_nonneg h1a 0)) (mul_nonneg (pow_nonneg hb0 4) (pow_nonneg h1b 0)))
  have hsum : (0:ℝ) ≤
      ((31853699 : ℝ) / 125000000) * (a ^ 0 * (1 - a) ^ 4 * (b ^ 0 * (1 - b) ^ 4)) +
      ((2870397 : ℝ) / 3906250) * (a ^ 0 * (1 - a) ^ 4 * (b ^ 1 * (1 - b) ^ 3)) +
      ((419380217 : ℝ) / 200000000) * (a ^ 0 * (1 - a) ^ 4 * (b ^ 2 * (1 - b) ^ 2)) +
      ((311100723 : ℝ) / 200000000) * (a ^ 0 * (1 - a) ^ 4 * (b ^ 3 * (1 - b) ^ 1)) +
      ((999999999 : ℝ) / 1000000000) * (a ^ 0 * (1 - a) ^ 4 * (b ^ 4 * (1 - b) ^ 0)) +
      ((2870397 : ℝ) / 3906250) * (a ^ 1 * (1 - a) ^ 3 * (b ^ 0 * (1 - b) ^ 4)) +
      ((128908533 : ℝ) / 40000000) * (a ^ 1 * (1 - a) ^ 3 * (b ^ 1 * (1 - b) ^ 3)) +
      ((59323207 : ℝ) / 6250000) * (a ^ 1 * (1 - a) ^ 3 * (b ^ 2 * (1 - b) ^ 2)) +
      ((3751685057 : ℝ) / 500000000) * (a ^ 1 * (1 - a) ^ 3 * (b ^ 3 * (1 - b) ^ 1)) +
      ((4745170403 : ℝ) / 1000000000) * (a ^ 1 * (1 - a) ^ 3 * (b ^ 4 * (1 - b) ^ 0)) +
      ((419380217 : ℝ) / 200000000) * (a ^ 2 * (1 - a) ^ 2 * (b ^ 0 * (1 - b) ^ 4)) +
      ((59323207 : ℝ) / 6250000) * (a ^ 2 * (1 - a) ^ 2 * (b ^ 1 * (1 - b) ^ 3)) +
      ((5281041161 : ℝ) / 250000000) * (a ^ 2 * (1 - a) ^ 2 * (b ^ 2 * (1 - b) ^ 2)) +
      ((16626098393 : ℝ) / 1000000000) * (a ^ 2 * (1 - a) ^ 2 * (b ^ 3 * (1 - b) ^ 1)) +
      ((4632589179 : ℝ) / 500000000) * (a ^ 2 * (1 - a) ^ 2 * (b ^ 4 * (1 - b) ^ 0)) +
      ((311100723 : ℝ) / 200000000) * (a ^ 3 * (1 - a) ^ 1 * (b ^ 0 * (1 - b) ^ 4)) +
      ((3751685057 : ℝ) / 500000000) * (a ^ 3 * (1 - a) ^ 1 * (b ^ 1 * (1 - b) ^ 3)) +
      ((16626098393 : ℝ) / 1000000000) * (a ^ 3 * (1 - a) ^ 1 * (b ^ 2 * (1 - b) ^ 2)) +
      ((14335709083 : ℝ) / 1000000000) * (a ^ 3 * (1 - a) ^ 1 * (b ^ 3 * (1 - b) ^ 1)) +
      ((1580619781 : ℝ) / 200000000) * (a ^ 3 * (1 - a) ^ 1 * (b ^ 4 * (1 - b) ^ 0)) +
      ((999999999 : ℝ) / 1000000000) * (a ^ 4 * (1 - a) ^ 0 * (b ^ 0 * (1 - b) ^ 4)) +
      ((4745170403 : ℝ) / 1000000000) * (a ^ 4 * (1 - a) ^ 0 * (b ^ 1 * (1 - b) ^ 3)) +
      ((4632589179 : ℝ) / 500000000) * (a ^ 4 * (1 - a) ^ 0 * (b ^ 2 * (1 - b) ^ 2)) +
      ((1580619781 : ℝ) / 200000000) * (a ^ 4 * (1 - a) ^ 0 * (b ^ 3 * (1 - b) ^ 1)) +
      ((172224819 : ℝ) / 50000000) * (a ^ 4 * (1 - a) ^ 0 * (b ^ 4 * (1 - b) ^ 0)) := by
    linarith
  nlinarith [mul_nonneg he hsum, key]

lemma polyA_nonneg (t : ℝ) (h0 : 0 ≤ t) (h1 : t ≤ 1) : 0 ≤ polyA t := by
  have h := polyA_mono 0 t le_rfl h0 h1
  simpa [polyA] using h

lemma polyA_le_one (t : ℝ) (h0 : 0 ≤ t) (h1 : t ≤ 1) : polyA t ≤ 1 := by
  have h := polyA_mono t 1 h0 h1 le_rfl
  have h2 : polyA 1 ≤ 1 := by norm_num [polyA]
  linarith

lemma bs_identity (S K r sigma τ : ℝ) (hS : 0 < S) (hK : 0 < K)
    (hsig : 0 < sigma) (hτ : 0 < τ) (d1 d2 : ℝ)
    (hd1 : d1 = (Real.log (S / K) + (r + 0.5 * sigma * sigma) * τ) /
      (sigma * Real.sqrt τ))
    (hd2 : d2 = d1 - sigma * Real.sqrt τ) :
    S * Real.exp (-(d1 * d1) / 2) =
      K * Real.exp (-r * τ) * Real.exp (-(d2 * d2) / 2) := by
  have hsqrt : 0 < Real.sqrt τ := Real.sqrt_pos.mpr hτ
  have hst : 0 < sigma * Real.sqrt τ := mul_pos hsig hsqrt
  have hsq : Real.sqrt τ * Real.sqrt τ = τ := Real.mul_self_sqrt hτ.le
  have hd1m : d1 * (sigma * Real.sqrt τ) =
      Real.log (S / K) + (r + 0.5 * sigma * sigma) * τ := by
    rw [hd1]
    field_simp
  have hdiff : d1 * d1 - d2 * d2 = 2 * (Real.log (S / K) + r * τ) := by
    rw [hd2]
    linear_combination 2 * hd1m - sigma * sigma * hsq
  have harg : -(d1 * d1) / 2 =
      -(d2 * d2) / 2 + (-(Real.log (S / K)) + -(r * τ)) := by linarith
  rw [show (-r * τ) = -(r * τ) from by ring, harg, Real.exp_add, Real.exp_add,
    Real.exp_neg, Real.exp_neg, Real.exp_log (div_pos hS hK)]
  field_simp
  ring

set_option maxHeartbeats 1000000 in
lemma bs_raw_nonneg (S K r sigma τ : ℝ) (hS : 0 < S) (hK : 0 < K)
    (hsig : 0 < sigma) (hτ : 0 < τ) (d1 d2 : ℝ)
    (hd1 : d1 = (Real.log (S / K) + (r + 0.5 * sigma * sigma) * τ) /
      (sigma * Real.sqrt τ))
    (hd2 : d2 = d1 - sigma * Real.sqrt τ) :
    0 ≤ S * normalCDF d1 - K * Real.exp (-r * τ) * normalCDF d2 ∧
    0 ≤ K * Real.exp (-r * τ) * (1 - normalCDF d2) - S * (1 - normalCDF d1) := by
  have hsqrt : 0 < Real.sqrt τ := Real.sqrt_pos.mpr hτ
  have hst : 0 < sigma * Real.sqrt τ := mul_pos hsig hsqrt
  have hsq : Real.sqrt τ * Real.sqrt τ = τ := Real.mul_self_sqrt hτ.le
  have hd21 : d2 < d1 := by rw [hd2]; linarith
  have hDF : 0 < Real.exp (-r * τ) := Real.exp_pos _
  have hKDF : 0 < K * Real.exp (-r * τ) := mul_pos hK hDF
  have hE1 : 0 < Real.exp (-(d1 * d1) / 2) := Real.exp_pos _
  have hE2 : 0 < Real.exp (-(d2 * d2) / 2) := Real.exp_pos _
  have hE1le : Real.exp (-(d1 * d1) / 2) ≤ 1 := by
    rw [Real.exp_le_one_iff]
    nlinarith [mul_self_nonneg d1]
  have hE2le : Real.exp (-(d2 * d2) / 2) ≤ 1 := by
    rw [Real.exp_le_one_iff]
    nlinarith [mul_self_nonneg d2]
  have hI := bs_identity S K r sigma τ hS hK hsig hτ d1 d2 hd1 hd2
  have hP1n : 0 ≤ polyA (tO d1) := polyA_nonneg _ (tO_pos d1).le (tO_le_one d1)
  have hP2n : 0 ≤ polyA (tO d2) := polyA_nonneg _ (tO_pos d2).le (tO_le_one d2)
  have hP1le : polyA (tO d1) ≤ 1 := polyA_le_one _ (tO_pos d1).le (tO_le_one d1)
  have hP2le : polyA (tO d2) ≤ 1 := polyA_le_one _ (tO_pos d2).le (tO_le_one d2)
  have hd1m : d1 * (sigma * Real.sqrt τ) =
      Real.log (S / K) + (r + 0.5 * sigma * sigma) * τ := by
    rw [hd1]
    field_simp
  have hIP1 : K * Real.exp (-r * τ) * Real.exp (-(d2 * d2) / 2) * polyA (tO d1) =
      S * Real.exp (-(d1 * d1) / 2) * polyA (tO d1) := by rw [← hI]
  have hIP2 : K * Real.exp (-r * τ) * Real.exp (-(d2 * d2) / 2) * polyA (tO d2) =
      S * Real.exp (-(d1 * d1) / 2) * polyA (tO d2) := by rw [← hI]
  rcases lt_or_le d1 0 with h1 | h1
  · -- d2 < d1 < 0 : both CDF values lie on the lower branch
    have h2 : d2 < 0 := lt_trans hd21 h1
    rw [normalCDF_eq_neg d1 h1, normalCDF_eq_neg d2 h2]
    have hP : polyA (tO d2) ≤ polyA (tO d1) := by
      apply polyA_mono _ _ (tO_pos d2).le _ (tO_le_one d1)
      apply tO_anti
      rw [abs_of_neg h1, abs_of_neg h2]
      linarith
    have hSK : S ≤ K * Real.exp (-r * τ) := by
      have hneg : d1 * (sigma * Real.sqrt τ) < 0 :=
        mul_neg_of_neg_of_pos h1 hst
      have hL : Real.log (S / K) ≤ -(r * τ) := by
        nlinarith [mul_pos (mul_pos hsig hsig) hτ]
      have hexp : S / K ≤ Real.exp (-(r * τ)) := by
        rw [← Real.exp_log (div_pos hS hK)]
        exact Real.exp_le_exp.mpr hL
      have h3 := mul_le_mul_of_nonneg_left hexp hK.le
      rw [mul_div_cancel₀ _ (ne_of_gt hK)] at h3
      calc S ≤ K * Real.exp (-(r * τ)) := h3
        _ = K * Real.exp (-r * τ) := by ring_nf
    have hgap : 0 ≤ S * Real.exp (-(d1 * d1) / 2) *
        (polyA (tO d1) - polyA (tO d2)) :=
      mul_nonneg (mul_pos hS hE1).le (by linarith)
    constructor
    · linarith [hIP2, hgap]
    · linarith [hIP2, hgap, hSK]
  · rcases lt_or_le d2 0 with h2 | h2
    · -- d2 < 0 ≤ d1 : mixed branches
      rw [normalCDF_eq_nonneg d1 (not_lt.mpr h1), normalCDF_eq_neg d2 h2]
      have hSE1 : S * Real.exp (-(d1 * d1) / 2) ≤ K * Real.exp (-r * τ) := by
        rw [hI]
        exact mul_le_of_le_one_right hKDF.le hE2le
      have hsum2 : polyA (tO d1) + polyA (tO d2) ≤ 2 := by linarith
      have hsumn : 0 ≤ polyA (tO d1) + polyA (tO d2) := by linarith
      have hA : S * Real.exp (-(d1 * d1) / 2) ≤ S :=
        mul_le_of_le_one_right hS.le hE1le
      have h1' : S * Real.exp (-(d1 * d1) / 2) * (polyA (tO d1) + polyA (tO d2)) ≤
          S * (polyA (tO d1) + polyA (tO d2)) :=
        mul_le_mul_of_nonneg_right hA hsumn
      have h2' : S * (polyA (tO d1) + polyA (tO d2)) ≤ S * 2 :=
        mul_le_mul_of_nonneg_left hsum2 hS.le
      have h3' : S * Real.exp (-(d1 * d1) / 2) * (polyA (tO d1) + polyA (tO d2)) ≤
          K * Real.exp (-r * τ) * (polyA (tO d1) + polyA (tO d2)) :=
        mul_le_mul_of_nonneg_right hSE1 hsumn
      have h4' : K * Real.exp (-r * τ) * (polyA (tO d1) + polyA (tO d2)) ≤
          K * Real.exp (-r * τ) * 2 :=
        mul_le_mul_of_nonneg_left hsum2 hKDF.le
      constructor
      · nlinarith [hIP2, h1', h2']
      · nlinarith [hIP2, h3', h4']
    · -- 0 ≤ d2 < d1 : both on the upper branch
      rw [normalCDF_eq_nonneg d1 (not_lt.mpr h1), normalCDF_eq_nonneg d2 (not_lt.mpr h2)]
      have hP : polyA (tO d1) ≤ polyA (tO d2) := by
        apply polyA_mono _ _ (tO_pos d1).le _ (tO_le_one d2)
        apply tO_anti
        rw [abs_of_nonneg h2, abs_of_nonneg (le_trans h2 hd21.le)]
        linarith
      have hKS : K * Real.exp (-r * τ) ≤ S := by
        have hpos : 0 ≤ d2 * (sigma * Real.sqrt τ) := mul_nonneg h2 hst.le
        have hd2m : d2 * (sigma * Real.sqrt τ) =
            Real.log (S / K) + r * τ - 0.5 * (sigma * sigma) * τ := by
          rw [hd2]
          linear_combination hd1m - sigma * sigma * hsq
        have hL : -(r * τ) ≤ Real.log (S / K) := by
          nlinarith [mul_pos (mul_pos hsig hsig) hτ]
        have hexp : Real.exp (-(r * τ)) ≤ S / K := by
          rw [← Real.exp_log (div_pos hS hK)]
          exact Real.exp_le_exp.mpr hL
        have h3 := mul_le_mul_of_nonneg_left hexp hK.le
        rw [mul_div_cancel₀ _ (ne_of_gt hK)] at h3
        calc K * Real.exp (-r * τ) = K * Real.exp (-(r * τ)) := by ring_nf
          _ ≤ S := h3
      have hgap : 0 ≤ S * Real.exp (-(d1 * d1) / 2) *
          (polyA (tO d2) - polyA (tO d1)) :=
        mul_nonneg (mul_pos hS hE1).le (by linarith)
      constructor
      · linarith [hIP2, hgap, hKS]
      · linarith [hIP2, hgap]


/-- Claim C1, counterexample: a 30-element path produces zero trade records,
while floor(30/30) = 1, so the claimed count floor(N/30) is wrong. -/
theorem c1_counterexample :
    (runCoveredCallBacktest (List.replicate 30 (100:ℚ)) 105 2 1 8300000).trades.length = 0 ∧
    (30 : ℕ) / 30 = 1 := by
  constructor
  · norm_num [runCoveredCallBacktest, coveredCallLoop]
  · norm_num

/-- Claim C1, amended: the loop keeps a 30-day block only when at least one
further element follows it, so a path of length N produces exactly
floor((N-1)/30) trade records; on a 31-element flat path whose price stays
below the strike it produces one period whose periodPnL equals
premium*quantity*100 = 200. -/
theorem c1_period_count :
    (∀ (prices : List ℚ) (strike premium quantity initialCapital : ℚ),
      (runCoveredCallBacktest prices strike premium quantity initialCapital).trades.length =
        (prices.length - 1) / 30) ∧
    (runCoveredCallBacktest (List.replicate 31 (100:ℚ)) 105 2 1 8300000).trades.map
      TradeRecord.pnl = [2 * 1 * 100] := by
  constructor
  · intro prices s p q cap
    simp only [runCoveredCallBacktest]
    rw [coveredCallLoop_length prices s p q prices.length 0 0 0 0 (by omega)]
    omega
  · norm_num [runCoveredCallBacktest, coveredCallLoop, tradePnL, periodExit]

/-- Claim C2: on a 29-element path the code produces zero periods, but the
ratio fields are exactly the results of dividing by zero and of taking the
minimum of an empty sequence: winRate and averagePnLPerPeriod are NaN
(0/0) and maxDrawdown is +Infinity (Math.min of no arguments), not
explicit no-data indicators. -/
theorem c2_short_path_report :
    (runCoveredCallBacktest (List.replicate 29 (100:ℚ)) 105 2 1 8300000).totalTrades = 0 ∧
    (runCoveredCallBacktest (List.replicate 29 (100:ℚ)) 105 2 1 8300000).trades = [] ∧
    (runCoveredCallBacktest (List.replicate 29 (100:ℚ)) 105 2 1 8300000).winRate = JSVal.nan ∧
    (runCoveredCallBacktest (List.replicate 29 (100:ℚ)) 105 2 1 8300000).avgPnL = JSVal.nan ∧
    (runCoveredCallBacktest (List.replicate 29 (100:ℚ)) 105 2 1 8300000).maxDrawdown =
      JSVal.posInf := by
  refine ⟨?_, ?_, ?_, ?_, ?_⟩ <;>
    norm_num [runCoveredCallBacktest, coveredCallLoop, jsDiv, jsMulPos, mathMin]

/-- Claim C5, counterexample: on a 31-element flat path with the strike far
above the price, the single cumulativePnL observed is 100 > 0 (none is
negative), yet maxDrawdown is 100, not the claimed zero. -/
theorem c5_counterexample :
    (runCoveredCallBacktest (List.replicate 31 (100:ℚ)) 200 1 1 8300000).trades.map
      TradeRecord.cumulativePnL = [100] ∧
    (runCoveredCallBacktest (List.replicate 31 (100:ℚ)) 200 1 1 8300000).maxDrawdown =
      JSVal.num 100 ∧
    (0 : ℚ) ≤ 100 ∧ (100 : ℚ) ≠ 0 := by
  refine ⟨?_, ?_, by norm_num, by norm_num⟩ <;>
    norm_num [runCoveredCallBacktest, coveredCallLoop, tradePnL, periodExit, mathMin]

/-- Claim C5, amended: for every path producing at least one period,
maxDrawdown equals the minimum cumulativePnL observed across all periods
(with no zero floor when all cumulative values are positive). -/
theorem c5_max_drawdown (prices : List ℚ) (strike premium quantity initialCapital : ℚ)
    (h : (runCoveredCallBacktest prices strike premium quantity initialCapital).trades ≠ []) :
    ∃ m : ℚ,
      (runCoveredCallBacktest prices strike premium quantity initialCapital).maxDrawdown =
        JSVal.num m ∧
      m ∈ (runCoveredCallBacktest prices strike premium quantity initialCapital).trades.map
        TradeRecord.cumulativePnL ∧
      ∀ x ∈ (runCoveredCallBacktest prices strike premium quantity initialCapital).trades.map
        TradeRecord.cumulativePnL, m ≤ x := by
  simp only [runCoveredCallBacktest] at h ⊢
  rcases hL : (coveredCallLoop prices strike premium quantity prices.length 0 0 0 0).1.map
      TradeRecord.cumulativePnL with _ | ⟨y, ys⟩
  · exact absurd (List.map_eq_nil_iff.mp hL) h
  · refine ⟨ys.foldl min y, ?_, ?_, ?_⟩
    · simp only [mathMin, hL]
    · exact foldl_min_mem y ys
    · intro x hx
      exact foldl_min_le y ys x hx

/-- Claim C6: cumulativePnL is the running sum of periodPnL, and totalPnL
is the sum of all period P&Ls, which for a nonempty trade list equals the
last cumulative value. -/
theorem c6_running_sum (prices : List ℚ) (strike premium quantity initialCapital : ℚ) :
    (∀ k, k < (runCoveredCallBacktest prices strike premium quantity initialCapital).trades.length →
      (((runCoveredCallBacktest prices strike premium quantity initialCapital).trades.getD k
        dummyTrade).cumulativePnL =
        (((runCoveredCallBacktest prices strike premium quantity initialCapital).trades.take
          (k + 1)).map TradeRecord.pnl).sum)) ∧
    (runCoveredCallBacktest prices strike premium quantity initialCapital).totalPnL =
      ((runCoveredCallBacktest prices strike premium quantity initialCapital).trades.map
        TradeRecord.pnl).sum ∧
    ((runCoveredCallBacktest prices strike premium quantity initialCapital).trades ≠ [] →
      (runCoveredCallBacktest prices strike premium quantity initialCapital).totalPnL =
        ((runCoveredCallBacktest prices strike premium quantity initialCapital).trades.getD
          ((runCoveredCallBacktest prices strike premium quantity initialCapital).trades.length - 1)
          dummyTrade).cumulativePnL) := by
  simp only [runCoveredCallBacktest]
  refine ⟨?_, ?_, ?_⟩
  · intro k hk
    rw [coveredCallLoop_cumul prices strike premium quantity prices.length 0 0 0 0 k hk]
    ring
  · rw [coveredCallLoop_total prices strike premium quantity prices.length 0 0 0 0]
    ring
  · intro hne
    have hlen : 0 < (coveredCallLoop prices strike premium quantity prices.length 0 0 0 0).1.length := by
      exact List.length_pos.mpr hne
    rw [coveredCallLoop_cumul prices strike premium quantity prices.length 0 0 0 0 _ (by omega),
      coveredCallLoop_total prices strike premium quantity prices.length 0 0 0 0]
    have htake : (coveredCallLoop prices strike premium quantity prices.length 0 0 0 0).1.length - 1 + 1 =
        (coveredCallLoop prices strike premium quantity prices.length 0 0 0 0).1.length := by
      omega
    rw [htake, List.take_length]

/-- Claim C7: every recorded period P&L equals stockPnL + optionPnL with
stockPnL = (exit - entry)*quantity*100 and optionPnL =
premium*quantity*100 - max(exit - strike, 0)*quantity*100; the k-th trade
is the period entered at index 30k. -/
theorem c7_period_pnl (prices : List ℚ) (strike premium quantity initialCapital : ℚ) (k : ℕ)
    (hk : k < (runCoveredCallBacktest prices strike premium quantity initialCapital).trades.length) :
    ((runCoveredCallBacktest prices strike premium quantity initialCapital).trades.getD k
      dummyTrade).pnl =
      (periodExit prices (30 * k) - prices.getD (30 * k) 0) * quantity * 100 +
      (premium * quantity * 100 -
        max (periodExit prices (30 * k) - strike) 0 * quantity * 100) := by
  simp only [runCoveredCallBacktest] at hk ⊢
  rw [coveredCallLoop_getD prices strike premium quantity prices.length 0 0 0 0 k hk]
  show tradePnL prices strike premium quantity (0 + 30 * k) = _
  rw [Nat.zero_add]
  simp only [tradePnL]
  by_cases hlt : strike < periodExit prices (30 * k)
  · rw [if_pos hlt, max_eq_left (by linarith)]
    ring
  · rw [if_neg hlt, max_eq_right (by linarith)]
    ring

/-- Claim C8: for startPrice > 0, numDays >= 1 and dailyVolatility > 0 the
generated path has length numDays, starts at startPrice, each subsequent
element is the previous one times (1 + u) for a uniform draw u in
[-volatility, +volatility] floored at 1, and no element is non-positive. -/
theorem c8_price_path (days : ℕ) (startPrice volatility : ℚ) (rand : ℕ → ℚ)
    (hdays : 1 ≤ days) (hstart : 0 < startPrice) (hvol : 0 < volatility)
    (hrand : ∀ n, 0 ≤ rand n ∧ rand n < 1) :
    ((generateMockPriceData days startPrice volatility rand).1.length = days) ∧
    ((generateMockPriceData days startPrice volatility rand).1.getD 0 0 = startPrice) ∧
    (∀ j, 1 ≤ j → j < days → ∃ u, -volatility ≤ u ∧ u ≤ volatility ∧
      (generateMockPriceData days startPrice volatility rand).1.getD j 0 =
        max ((generateMockPriceData days startPrice volatility rand).1.getD (j - 1) 0 * (1 + u)) 1) ∧
    (∀ x ∈ (generateMockPriceData days startPrice volatility rand).1, 0 < x) := by
  refine ⟨?_, ?_, ?_, ?_⟩
  · simp only [generateMockPriceData, List.length_cons]
    rw [genAux_length volatility rand days 1 startPrice]
    omega
  · simp [generateMockPriceData]
  · intro j h1 hj
    obtain ⟨m, rfl⟩ : ∃ m, j = m + 1 := ⟨j - 1, by omega⟩
    refine ⟨(rand (m + 1) - 1/2) * volatility * 2, ?_, ?_, ?_⟩
    · have h := (hrand (m + 1)).1
      nlinarith
    · have h := (hrand (m + 1)).2
      nlinarith
    · simp only [generateMockPriceData, List.getD_cons_succ, Nat.add_sub_cancel]
      rw [genAux_getD volatility rand days 1 startPrice m (by omega)]
      have hidx : 1 + m = m + 1 := by omega
      rw [hidx]
      cases m with
      | zero => simp
      | succ m2 => simp
  · intro x hx
    simp only [generateMockPriceData, List.mem_cons] at hx
    rcases hx with hx | hx
    · rw [hx]; exact hstart
    · have := genAux_one_le volatility rand days 1 startPrice x hx
      linarith

/-- Claim C9: with the randomness stream made an explicit argument, the
path generator is deterministic: two streams agreeing on the indices the
loop consumes produce identical (prices, returns) output. -/
theorem c9_deterministic_given_stream (days : ℕ) (startPrice volatility : ℚ)
    (r1 r2 : ℕ → ℚ) (h : ∀ m, m < days → r1 m = r2 m) :
    generateMockPriceData days startPrice volatility r1 =
      generateMockPriceData days startPrice volatility r2 := by
  simp only [generateMockPriceData]
  rw [genAux_congr volatility days r1 r2 1 startPrice (fun m h1 h2 => h m h2)]

/-- Claim C10: over a path of positive prices, every loop iteration's exit
index 30k + 29 is in bounds and holds a nonzero value, so the
`|| prices[prices.length - 1]` fallback is never taken. -/
theorem c10_exit_in_bounds (prices : List ℚ) (k : ℕ)
    (hpos : ∀ x ∈ prices, 0 < x) (hk : 30 * k + 30 < prices.length) :
    30 * k + 29 < prices.length ∧
    prices.getD (30 * k + 29) 0 ≠ 0 ∧
    periodExit prices (30 * k) = prices.getD (30 * k + 29) 0 := by
  have hb : 30 * k + 29 < prices.length := by omega
  have hget : prices.getD (30 * k + 29) 0 = prices[30 * k + 29] :=
    List.getD_eq_getElem prices 0 hb
  have hmem : prices[30 * k + 29] ∈ prices := List.getElem_mem hb
  have hpos2 : 0 < prices.getD (30 * k + 29) 0 := by
    rw [hget]; exact hpos _ hmem
  refine ⟨hb, ne_of_gt hpos2, ?_⟩
  simp only [periodExit]
  rw [if_neg (ne_of_gt hpos2)]

/-- Claim C4: at zero days to expiry the pricer returns exactly the
intrinsic values, and the greeks object is `{delta: S > K ? 1 : 0, gamma:
0, theta: 0, vega: 0, rho: 0}`. -/
theorem c4_zero_expiry (S K r sigma : ℝ) (hS : 0 < S) (hK : 0 < K) (hsig : 0 < sigma) :
    (calculateBlackScholes S K 0 r sigma).callPrice = max (S - K) 0 ∧
    (calculateBlackScholes S K 0 r sigma).putPrice = max (K - S) 0 ∧
    (calculateBlackScholes S K 0 r sigma).greeks =
      Greeks.expiry (if K < S then 1 else 0) 0 0 0 0 := by
  have h0 : (0:ℝ) / 365 ≤ 0 := by norm_num
  refine ⟨?_, ?_, ?_⟩ <;> simp [calculateBlackScholes, h0]

/-- Witness for C5 at a concrete 31-element path. -/
theorem c5_max_drawdown_witness :
    ∃ m : ℚ,
      (runCoveredCallBacktest (List.replicate 31 (100:ℚ)) 105 2 1 8300000).maxDrawdown =
        JSVal.num m ∧
      m ∈ (runCoveredCallBacktest (List.replicate 31 (100:ℚ)) 105 2 1 8300000).trades.map
        TradeRecord.cumulativePnL ∧
      ∀ x ∈ (runCoveredCallBacktest (List.replicate 31 (100:ℚ)) 105 2 1 8300000).trades.map
        TradeRecord.cumulativePnL, m ≤ x :=
  c5_max_drawdown (List.replicate 31 (100:ℚ)) 105 2 1 8300000
    (by norm_num [runCoveredCallBacktest, coveredCallLoop, tradePnL, periodExit])

/-- Witness for C6 at a concrete 31-element path. -/
theorem c6_running_sum_witness :
    ((runCoveredCallBacktest (List.replicate 31 (100:ℚ)) 105 2 1 8300000).trades.getD 0
      dummyTrade).cumulativePnL =
      (((runCoveredCallBacktest (List.replicate 31 (100:ℚ)) 105 2 1 8300000).trades.take 1).map
        TradeRecord.pnl).sum ∧
    (runCoveredCallBacktest (List.replicate 31 (100:ℚ)) 105 2 1 8300000).totalPnL =
      ((runCoveredCallBacktest (List.replicate 31 (100:ℚ)) 105 2 1 8300000).trades.getD
        ((runCoveredCallBacktest (List.replicate 31 (100:ℚ)) 105 2 1 8300000).trades.length - 1)
        dummyTrade).cumulativePnL :=
  ⟨(c6_running_sum (List.replicate 31 (100:ℚ)) 105 2 1 8300000).1 0
      (by norm_num [runCoveredCallBacktest, coveredCallLoop]),
    (c6_running_sum (List.replicate 31 (100:ℚ)) 105 2 1 8300000).2.2
      (by norm_num [runCoveredCallBacktest, coveredCallLoop])⟩

/-- Witness for C7 at a concrete 31-element path, period 0. -/
theorem c7_period_pnl_witness :
    ((runCoveredCallBacktest (List.replicate 31 (100:ℚ)) 105 2 1 8300000).trades.getD 0
      dummyTrade).pnl =
      (periodExit (List.replicate 31 (100:ℚ)) (30 * 0) -
        (List.replicate 31 (100:ℚ)).getD (30 * 0) 0) * 1 * 100 +
      (2 * 1 * 100 -
        max (periodExit (List.replicate 31 (100:ℚ)) (30 * 0) - 105) 0 * 1 * 100) :=
  c7_period_pnl (List.replicate 31 (100:ℚ)) 105 2 1 8300000 0
    (by norm_num [runCoveredCallBacktest, coveredCallLoop])

/-- Witness for C8 at concrete inputs. -/
theorem c8_price_path_witness :
    (((generateMockPriceData 2 100 (1/10) (fun _ => 1/2)).1.length = 2) ∧
    ((generateMockPriceData 2 100 (1/10) (fun _ => 1/2)).1.getD 0 0 = 100) ∧
    (∀ j, 1 ≤ j → j < 2 → ∃ u, -(1/10 : ℚ) ≤ u ∧ u ≤ 1/10 ∧
      (generateMockPriceData 2 100 (1/10) (fun _ => 1/2)).1.getD j 0 =
        max ((generateMockPriceData 2 100 (1/10) (fun _ => 1/2)).1.getD (j - 1) 0 * (1 + u)) 1) ∧
    (∀ x ∈ (generateMockPriceData 2 100 (1/10) (fun _ => 1/2)).1, 0 < x)) :=
  c8_price_path 2 100 (1/10) (fun _ => 1/2) (by norm_num) (by norm_num) (by norm_num)
    (fun n => ⟨by norm_num, by norm_num⟩)

/-- Witness for C9: two streams agreeing below 3 give identical output. -/
theorem c9_deterministic_witness :
    generateMockPriceData 3 100 (1/10) (fun _ => 1/2) =
      generateMockPriceData 3 100 (1/10) (fun n => if n < 3 then 1/2 else 0) :=
  c9_deterministic_given_stream 3 100 (1/10) (fun _ => 1/2)
    (fun n => if n < 3 then 1/2 else 0) (fun m hm => by simp [hm])

/-- Witness for C10 at a concrete 31-element positive path, iteration 0. -/
theorem c10_exit_in_bounds_witness :
    30 * 0 + 29 < (List.replicate 31 (100:ℚ)).length ∧
    (List.replicate 31 (100:ℚ)).getD (30 * 0 + 29) 0 ≠ 0 ∧
    periodExit (List.replicate 31 (100:ℚ)) (30 * 0) =
      (List.replicate 31 (100:ℚ)).getD (30 * 0 + 29) 0 :=
  c10_exit_in_bounds (List.replicate 31 (100:ℚ)) 0
    (fun x hx => by rw [List.eq_of_mem_replicate hx]; norm_num) (by simp)

/-- Witness for C4 at S = K = 100 and zero days to expiry. -/
theorem c4_zero_expiry_witness :
    (calculateBlackScholes 100 100 0 0.05 0.2).callPrice = 0 ∧
    (calculateBlackScholes 100 100 0 0.05 0.2).putPrice = 0 := by
  obtain ⟨h1, h2, h3⟩ :=
    c4_zero_expiry 100 100 0.05 0.2 (by norm_num) (by norm_num) (by norm_num)
  rw [h1, h2]
  norm_num

lemma bs_parity_exact (S K T r sigma : ℝ) (hS : 0 < S) (hK : 0 < K)
    (hsig : 0 < sigma) (hT : 0 < T) :
    (calculateBlackScholes S K T r sigma).callPrice -
      (calculateBlackScholes S K T r sigma).putPrice =
      S - K * Real.exp (-r * (T / 365)) := by
  have hτ : 0 < T / 365 := by positivity
  have hnot : ¬ (T / 365 ≤ 0) := not_le.mpr hτ
  obtain ⟨hc, hp⟩ := bs_raw_nonneg S K r sigma (T / 365) hS hK hsig hτ _ _ rfl rfl
  simp only [calculateBlackScholes, if_neg hnot]
  rw [max_eq_left hc, max_eq_left hp]
  ring


/-- Claim C3: for inputs with S, K in [1, 1e6], sigma in [0.01, 5] and T
in [1, 3650] calendar days (time to expiry in [1/365, 10] years), the
returned prices satisfy put-call parity within 1e-4; in fact the two
flooring operations never activate and the parity identity
callPrice - putPrice = S - K*exp(-r*T/365) is exact. -/
theorem c3_put_call_parity (S K T r sigma : ℝ)
    (hS1 : 1 ≤ S) (hS2 : S ≤ 1000000) (hK1 : 1 ≤ K) (hK2 : K ≤ 1000000)
    (hsig1 : 0.01 ≤ sigma) (hsig2 : sigma ≤ 5) (hT1 : 1 ≤ T) (hT2 : T ≤ 3650) :
    |(calculateBlackScholes S K T r sigma).callPrice -
      (calculateBlackScholes S K T r sigma).putPrice -
      (S - K * Real.exp (-r * (T / 365)))| ≤ 0.0001 := by
  rw [bs_parity_exact S K T r sigma (by linarith) (by linarith) (by linarith)
    (by linarith)]
  simp
  norm_num

/-- Witness for C3 at concrete in-range inputs. -/
theorem c3_put_call_parity_witness :
    |(calculateBlackScholes 100 105 30 0.05 0.2).callPrice -
      (calculateBlackScholes 100 105 30 0.05 0.2).putPrice -
      (100 - 105 * Real.exp (-0.05 * (30 / 365)))| ≤ 0.0001 :=
  c3_put_call_parity 100 105 30 0.05 0.2 (by norm_num) (by norm_num) (by norm_num)
    (by norm_num) (by norm_num) (by norm_num) (by norm_num) (by norm_num)
